import Mathlib

/-!
Verification development for the 3D bot pipeline server
(`tools/3d-gen/server.py`): a shallow embedding of the slot placement
engine, the model residency state, the attachment pipeline of the
assemble endpoint, and the merge / rig / paint endpoints, together with
theorems settling the specified properties.

Floating point coordinates are embedded as rationals; external effects
(file system, generation backends, subprocesses, image search) are
supplied as explicit environments so that every endpoint is a pure
function of its request, its environment and the process state.
-/

namespace Srv

/-- A 3D vector with rational coordinates (embedding of numpy float triples). -/
structure Vec3 where
  x : ℚ
  y : ℚ
  z : ℚ
deriving DecidableEq, Repr

def Vec3.add (a b : Vec3) : Vec3 := ⟨a.x + b.x, a.y + b.y, a.z + b.z⟩

def Vec3.sub (a b : Vec3) : Vec3 := ⟨a.x - b.x, a.y - b.y, a.z - b.z⟩

/-- Component-wise (Hadamard) product, embedding numpy elementwise `*`. -/
def Vec3.hmul (a b : Vec3) : Vec3 := ⟨a.x * b.x, a.y * b.y, a.z * b.z⟩

/-- Uniform scaling of a vector by a scalar. -/
def Vec3.smul (s : ℚ) (a : Vec3) : Vec3 := ⟨s * a.x, s * a.y, s * a.z⟩

def Vec3.zero : Vec3 := ⟨0, 0, 0⟩

/-- The fixed 12-entry slot table `SLOT_MAP` of the source: fractional
offsets of bounding-box size measured from the bounding-box minimum corner. -/
def SLOT_MAP (slot : String) : Option Vec3 :=
  match slot with
  | "head"        => some ⟨1/2, 1, 1/2⟩
  | "left_hand"   => some ⟨1/10, 11/20, 1/2⟩
  | "right_hand"  => some ⟨9/10, 11/20, 1/2⟩
  | "left_arm"    => some ⟨3/20, 13/20, 1/2⟩
  | "right_arm"   => some ⟨17/20, 13/20, 1/2⟩
  | "chest_front" => some ⟨1/2, 13/20, 17/20⟩
  | "chest_back"  => some ⟨1/2, 13/20, 3/20⟩
  | "waist"       => some ⟨1/2, 2/5, 1/2⟩
  | "left_leg"    => some ⟨3/10, 1/10, 1/2⟩
  | "right_leg"   => some ⟨7/10, 1/10, 1/2⟩
  | "top"         => some ⟨1/2, 11/10, 1/2⟩
  | "bottom"      => some ⟨1/2, -(1/20), 1/2⟩
  | _             => none

/-- Embedding of `get_slot_position`: the base mesh enters only through its
bounding box `(bbMin, bbMax)`.  A slot name missing from `SLOT_MAP` is
replaced by the slot named top before lookup, exactly as in the source. -/
def get_slot_position (bbMin bbMax : Vec3) (slot : String) : Vec3 :=
  let slot := if (SLOT_MAP slot).isNone then "top" else slot
  let size := Vec3.sub bbMax bbMin
  match SLOT_MAP slot with
  | some fracs => Vec3.add bbMin (Vec3.hmul size fracs)
  | none => Vec3.add bbMin (Vec3.hmul size Vec3.zero)

theorem slot_map_top : SLOT_MAP "top" = some ⟨1/2, 11/10, 1/2⟩ := rfl

/-! ## Model residency state

The source keeps one module-level global per heavy backend
(`triposg_pipe` / `rmbg_net`, `hunyuan3d_pipe`, `hunyuan3d_text2img`,
`hunyuan3d_paint`).  Loaded handles are embedded as `Option Nat`
(`none` = not resident); `loadCount` counts actual backend loads so that
idempotence (no reload) is observable; `nextHandle` supplies fresh handle
identifiers.  Backend import/initialisation failures are collapsed to a
per-backend availability flag: an unavailable load returns `none` and
leaves the residency fields unchanged. -/

structure SrvState where
  triposgPipe : Option Nat
  rmbgNet : Option Nat
  hunyuan3dPipe : Option Nat
  hunyuan3dText2img : Option Nat
  hunyuan3dPaint : Option Nat
  loadCount : Nat
  nextHandle : Nat
deriving DecidableEq, Repr

/-- Which backends can actually be loaded (dependencies installed). -/
structure LoadEnv where
  triposgAvail : Bool
  hunyuan3dAvail : Bool
  text2imgAvail : Bool
  paintAvail : Bool
deriving DecidableEq, Repr

/-- The process starts with no model resident. -/
def initState : SrvState := ⟨none, none, none, none, none, 0, 0⟩

/-- The four mutually heavy model kinds tracked by the server. -/
inductive ModelKind where
  | triposg
  | hunyuanShape
  | hunyuanText2img
  | hunyuanPaint
deriving DecidableEq, Repr

def SrvState.resident (s : SrvState) (k : ModelKind) : Bool :=
  match k with
  | .triposg => s.triposgPipe.isSome
  | .hunyuanShape => s.hunyuan3dPipe.isSome
  | .hunyuanText2img => s.hunyuan3dText2img.isSome
  | .hunyuanPaint => s.hunyuan3dPaint.isSome

/-- Number of distinct model kinds currently resident. -/
def SrvState.residentCount (s : SrvState) : Nat :=
  (if s.triposgPipe.isSome then 1 else 0)
    + (if s.hunyuan3dPipe.isSome then 1 else 0)
    + (if s.hunyuan3dText2img.isSome then 1 else 0)
    + (if s.hunyuan3dPaint.isSome then 1 else 0)

/-- Embedding of `get_triposg_models`: return the existing handle when
resident, otherwise load (setting both the pipeline and the RMBG net) or
fail, leaving the state unchanged, when the backend is unavailable. -/
def get_triposg_models (env : LoadEnv) (s : SrvState) : Option Nat × SrvState :=
  match s.triposgPipe with
  | some h => (some h, s)
  | none =>
    if env.triposgAvail then
      (some s.nextHandle,
        { s with
            triposgPipe := some s.nextHandle
            rmbgNet := some (s.nextHandle + 1)
            loadCount := s.loadCount + 1
            nextHandle := s.nextHandle + 2 })
    else (none, s)

/-- Embedding of `get_hunyuan3d_model`. -/
def get_hunyuan3d_model (env : LoadEnv) (s : SrvState) : Option Nat × SrvState :=
  match s.hunyuan3dPipe with
  | some h => (some h, s)
  | none =>
    if env.hunyuan3dAvail then
      (some s.nextHandle,
        { s with
            hunyuan3dPipe := some s.nextHandle
            loadCount := s.loadCount + 1
            nextHandle := s.nextHandle + 1 })
    else (none, s)

/-- Embedding of `get_hunyuan3d_text2img`. -/
def get_hunyuan3d_text2img (env : LoadEnv) (s : SrvState) : Option Nat × SrvState :=
  match s.hunyuan3dText2img with
  | some h => (some h, s)
  | none =>
    if env.text2imgAvail then
      (some s.nextHandle,
        { s with
            hunyuan3dText2img := some s.nextHandle
            loadCount := s.loadCount + 1
            nextHandle := s.nextHandle + 1 })
    else (none, s)

/-- Embedding of `get_hunyuan3d_paint`. -/
def get_hunyuan3d_paint (env : LoadEnv) (s : SrvState) : Option Nat × SrvState :=
  match s.hunyuan3dPaint with
  | some h => (some h, s)
  | none =>
    if env.paintAvail then
      (some s.nextHandle,
        { s with
            hunyuan3dPaint := some s.nextHandle
            loadCount := s.loadCount + 1
            nextHandle := s.nextHandle + 1 })
    else (none, s)

/-- Embedding of `unload_triposg`: clears both TripoSG globals. -/
def unload_triposg (s : SrvState) : SrvState :=
  { s with triposgPipe := none, rmbgNet := none }

/-- Embedding of `unload_hunyuan3d`: clears the shape and text2img globals. -/
def unload_hunyuan3d (s : SrvState) : SrvState :=
  { s with hunyuan3dPipe := none, hunyuan3dText2img := none }

/-- Embedding of `unload_hunyuan3d_paint`. -/
def unload_hunyuan3d_paint (s : SrvState) : SrvState :=
  { s with hunyuan3dPaint := none }

/-! ## Rig endpoint (`rig_bot`) -/

/-- An HTTP-level error: status code and message. -/
abbrev HErr := Nat × String

/-- Outcome of one subprocess invocation: the wall-clock bound expired, or
the process completed with an exit code and captured stdout / stderr. -/
inductive ProcResult where
  | timeoutExpired
  | completed (exitCode : Nat) (stdout stderr : String)
deriving DecidableEq, Repr

/-- The timeout (seconds) passed to `subprocess.run` in `rig_bot`. -/
def RIG_TIMEOUT_S : Nat := 300

structure RigRequest where
  glbPath : String
  outputName : String
deriving DecidableEq, Repr

/-- External world of `rig_bot`: file-existence checks and the UniRig
subprocess, the latter a function of the timeout bound it is run under. -/
structure RigEnv where
  glbExists : Bool
  unirigPythonExists : Bool
  rigWrapperExists : Bool
  run : Nat → ProcResult
  outputExists : Bool
  outputSize : Nat

structure RigResp where
  glbInput : String
  outputName : String
  riggedPath : Option String
  fileSize : Option Nat
deriving DecidableEq, Repr

/-- Embedding of `rig_bot`: resolve the input GLB (404 before any state
change), unload TripoSG, check the UniRig interpreter and wrapper (503),
run the subprocess under `RIG_TIMEOUT_S` (timeout → 504, non-zero exit →
500), then report `riggedPath` as the output path exactly when the
declared output file exists. -/
def rig_bot (env : RigEnv) (req : RigRequest) (s : SrvState) :
    Except HErr RigResp × SrvState :=
  if !env.glbExists then (.error (404, "GLB not found"), s)
  else
    let s1 := unload_triposg s
    if !env.unirigPythonExists then
      (.error (503, "UniRig Conda env not found"), s1)
    else if !env.rigWrapperExists then
      (.error (503, "UniRig wrapper not found"), s1)
    else
      match env.run RIG_TIMEOUT_S with
      | .timeoutExpired => (.error (504, "Rigging timed out (300s limit)"), s1)
      | .completed code _ _ =>
        if code ≠ 0 then (.error (500, "UniRig rigging failed"), s1)
        else if env.outputExists then
          (.ok { glbInput := req.glbPath
                 outputName := req.outputName
                 riggedPath := some ("/parts/generated/" ++ req.outputName ++ ".glb")
                 fileSize := some env.outputSize }, s1)
        else
          (.ok { glbInput := req.glbPath
                 outputName := req.outputName
                 riggedPath := none
                 fileSize := none }, s1)

/-! ## Paint endpoint (`paint_bot`) -/

/-- The observables of a mesh handed to the paint stage: an identifier
(so that pass-through can be observed) and its face count. -/
structure PMesh where
  meshId : Nat
  faceCount : Nat
deriving DecidableEq, Repr

/-- Face-count ceiling `MAX_PAINT_FACES` of `paint_bot`. -/
def MAX_PAINT_FACES : Nat := 50000

/-- The decimation stage of `paint_bot`: when the loaded mesh exceeds
`MAX_PAINT_FACES`, quadric decimation is attempted; `decimated` is its
outcome (`none` = the decimation call raised, in which case the source
logs a warning and keeps the original mesh).  At or below the ceiling
the mesh is not touched. -/
def decimateForPaint (mesh : PMesh) (decimated : Option PMesh) : PMesh :=
  if mesh.faceCount > MAX_PAINT_FACES then
    match decimated with
    | some m => m
    | none => mesh
  else mesh

structure PaintRequest where
  glbPath : String
  imagePath : String
  searchQuery : String
  outputName : String
deriving DecidableEq, Repr

/-- External world of `paint_bot`.  Reference-image resolution (given
path or web search) is collapsed to one flag `refImage`; all of its
failure modes exit through the same handler as the embedded 400 branch.
`backend` is the Hunyuan3D-Paint call on the (possibly decimated) mesh;
`false` means it raised. -/
structure PaintEnv where
  glbExists : Bool
  refImage : Bool
  loads : LoadEnv
  mesh : PMesh
  loadOk : Bool
  decimated : Option PMesh
  backend : PMesh → Bool
  exportOk : Bool
  outputSize : Nat

structure PaintResp where
  paintedPath : String
  fileSize : Nat
deriving DecidableEq, Repr

/-- The mesh actually submitted to the Hunyuan3D-Paint backend. -/
def meshSentToPaintBackend (env : PaintEnv) : PMesh :=
  decimateForPaint env.mesh env.decimated

/-- Embedding of `paint_bot`: resolve the GLB (404 before the handler is
armed), resolve a reference image (failure raises and the handler frees
the paint model), unload the shape models, acquire the paint model (503
on failure), load the mesh, decimate when over the ceiling, call the
backend and export.  Every path through the handler body frees the paint
model before returning or re-raising. -/
def paint_bot (env : PaintEnv) (req : PaintRequest) (s : SrvState) :
    Except HErr PaintResp × SrvState :=
  if !env.glbExists then (.error (404, "GLB not found"), s)
  else if !env.refImage then
    (.error (400, "No reference image provided"), unload_hunyuan3d_paint s)
  else
    let s1 := unload_triposg (unload_hunyuan3d s)
    match get_hunyuan3d_paint env.loads s1 with
    | (none, s2) =>
      (.error (503, "Hunyuan3D-Paint not available"), unload_hunyuan3d_paint s2)
    | (some _, s2) =>
      if !env.loadOk then
        (.error (500, "Painting failed"), unload_hunyuan3d_paint s2)
      else if !env.backend (meshSentToPaintBackend env) then
        (.error (500, "Painting failed"), unload_hunyuan3d_paint s2)
      else if !env.exportOk then
        (.error (500, "Painting failed"), unload_hunyuan3d_paint s2)
      else
        (.ok { paintedPath := "/parts/generated/" ++ req.outputName ++ ".glb"
               fileSize := env.outputSize }, unload_hunyuan3d_paint s2)

/-! ## Merge endpoint (`merge_parts`) -/

/-- One entry of a merge request: a dict with a mandatory path and
optional position / rotation lists, embedded as `Option` fields (`none` =
key absent, so `dict.get` falls back to its default). -/
structure MergePartEntry where
  path : String
  position : Option Vec3
  rotationDeg : Option Vec3
deriving DecidableEq, Repr

/-- A GLB as loaded by trimesh: either a single mesh or a scene holding
named geometries. -/
inductive LoadedGlb where
  | single
  | scene (names : List String)
deriving DecidableEq, Repr

/-- External world of `merge_parts`. -/
structure MergeEnv where
  pathExists : String → Bool
  loaded : String → LoadedGlb
  exportSize : Nat

/-- A geometry node added to the combined scene: its node name and the
transform it was placed with (translation, rotation in degrees). -/
structure PlacedGeom where
  nodeName : String
  translate : Vec3
  rotateDeg : Vec3
deriving DecidableEq, Repr

/-- The nodes contributed by entry `p` at index `i`: missing position /
rotation default to `[0, 0, 0]`, scenes contribute one node per geometry,
a single mesh contributes one node. -/
def placedOf (env : MergeEnv) (i : Nat) (p : MergePartEntry) : List PlacedGeom :=
  let pos := p.position.getD Vec3.zero
  let rot := p.rotationDeg.getD Vec3.zero
  match env.loaded p.path with
  | .single => [{ nodeName := "part_" ++ toString i, translate := pos, rotateDeg := rot }]
  | .scene names =>
    names.map (fun n =>
      { nodeName := "part_" ++ toString i ++ "_" ++ n, translate := pos, rotateDeg := rot })

/-- The indexed loop of `merge_parts`: a missing part file aborts with
404, otherwise the nodes of each entry are appended in order. -/
def mergeGo (env : MergeEnv) (i : Nat) : List MergePartEntry → Except HErr (List PlacedGeom)
  | [] => .ok []
  | p :: rest =>
    if !env.pathExists p.path then .error (404, "Part not found")
    else
      match mergeGo env (i + 1) rest with
      | .error e => .error e
      | .ok rs => .ok (placedOf env i p ++ rs)

structure MergeResp where
  mergedPath : String
  partsCount : Nat
  fileSize : Nat
  placed : List PlacedGeom
deriving DecidableEq, Repr

/-- Embedding of `merge_parts`. -/
def merge_parts (env : MergeEnv) (parts : List MergePartEntry) (outputName : String) :
    Except HErr MergeResp :=
  match mergeGo env 0 parts with
  | .error e => .error e
  | .ok placed =>
    .ok { mergedPath := "/parts/generated/" ++ outputName ++ ".glb"
          partsCount := parts.length
          fileSize := env.exportSize
          placed := placed }

/-! ## Mesh geometry for the assemble pipeline

A mesh is embedded as its vertex list; `trimesh.apply_scale` scales every
vertex, `apply_translation` shifts every vertex, the centroid is the
average of the vertices (the geometric center of the vertices, as the spec defines centroid),
and `bounds` is the componentwise min / max corner pair. -/

abbrev Mesh := List Vec3

def applyScale (m : Mesh) (s : ℚ) : Mesh := m.map (Vec3.smul s)

def applyTranslation (m : Mesh) (t : Vec3) : Mesh := m.map (fun v => Vec3.add v t)

def sumVecs : Mesh → Vec3
  | [] => Vec3.zero
  | v :: vs => Vec3.add v (sumVecs vs)

def centroid (m : Mesh) : Vec3 :=
  Vec3.smul (1 / (m.length : ℚ)) (sumVecs m)

def vecMin (a b : Vec3) : Vec3 := ⟨min a.x b.x, min a.y b.y, min a.z b.z⟩

def vecMax (a b : Vec3) : Vec3 := ⟨max a.x b.x, max a.y b.y, max a.z b.z⟩

def boundsGo (lo hi : Vec3) : Mesh → Vec3 × Vec3
  | [] => (lo, hi)
  | v :: vs => boundsGo (vecMin lo v) (vecMax hi v) vs

/-- Bounding box `(min, max)` of a mesh (`mesh.bounds`). -/
def meshBounds : Mesh → Vec3 × Vec3
  | [] => (Vec3.zero, Vec3.zero)
  | v :: vs => boundsGo v v vs

/-- The positioning of one attachment in `assemble_bot`: apply the
uniform scale when it differs from one, compute the slot position from
the base bounding box, and translate the scaled mesh by the slot position
minus its (post-scale) centroid. -/
def positionAttachment (bbMin bbMax : Vec3) (attMesh : Mesh) (scale : ℚ) (slot : String) :
    Mesh :=
  let m := if scale ≠ 1 then applyScale attMesh scale else attMesh
  let slotPos := get_slot_position bbMin bbMax slot
  let c := centroid m
  applyTranslation m (Vec3.sub slotPos c)

/-! ## Assemble pipeline (`assemble_bot`) -/

/-- One attachment of an assemble request (`AttachmentPart` in the
source); empty strings play the role of missing values, as in the
pydantic defaults of the source. -/
structure AttachmentPart where
  description : String
  searchQuery : String
  textPrompt : String
  imagePath : String
  glbPath : String
  slot : String
  scale : ℚ
  engine : String
deriving DecidableEq, Repr

/-- An entry of the generated-assets list of the response. -/
structure GeneratedPart where
  role : String
  slot : String
  glbPath : String
deriving DecidableEq, Repr

/-- External world of the assemble attachment loop: file existence, image
search (returning a possibly empty image path), the three generation
backends (each returning the GLB path of the generated part), and mesh
loading (`trimesh.load` composed with `extract_single_mesh`).  Residency
side effects of the generation calls are not observable in the assemble
response and are not tracked here. -/
structure AsmEnv where
  pathExists : String → Bool
  searchImage : String → Except HErr String
  genHunyuanText : String → Except HErr String
  genHunyuanImage : String → Except HErr String
  genTriposg : String → Except HErr String
  loadMesh : String → Except String Mesh
  exportSize : Nat

/-- Outcome of processing one attachment: a fatal error (propagates and
aborts the assembly), a skip (the loop continues without the
attachment), or a positioned mesh together with the generated-assets
entry it contributed (if it was generated rather than pre-existing). -/
inductive AttOutcome where
  | fatal (e : HErr)
  | skipped
  | placed (gen : Option GeneratedPart) (mesh : Mesh)
deriving DecidableEq, Repr

/-- Load the resolved GLB and position it; a load failure propagates to
the outer handler as a 500. -/
def loadAndPlace (env : AsmEnv) (bbMin bbMax : Vec3) (att : AttachmentPart)
    (gen : Option GeneratedPart) (path : String) : AttOutcome :=
  match env.loadMesh path with
  | .error msg => .fatal (500, msg)
  | .ok m => .placed gen (positionAttachment bbMin bbMax m att.scale att.slot)

/-- Embedding of one iteration of the attachment loop of `assemble_bot`:
existing GLB (404 when missing), else text-to-3D when a text prompt and
the hunyuan3d engine are given, else the image path (searched for when
absent but a query is given); an attachment left with no image is skipped
with a warning, otherwise the chosen engine generates the part. -/
def resolveAttachment (env : AsmEnv) (bbMin bbMax : Vec3) (att : AttachmentPart) :
    AttOutcome :=
  if att.glbPath ≠ "" then
    if !env.pathExists att.glbPath then .fatal (404, "Attachment GLB not found")
    else loadAndPlace env bbMin bbMax att none att.glbPath
  else if att.textPrompt ≠ "" ∧ att.engine = "hunyuan3d" then
    match env.genHunyuanText att.textPrompt with
    | .error e => .fatal e
    | .ok p =>
      loadAndPlace env bbMin bbMax att
        (some { role := att.description, slot := att.slot, glbPath := p }) p
  else
    let searched : Except HErr String :=
      if att.imagePath = "" ∧ att.searchQuery ≠ "" then
        env.searchImage att.searchQuery
      else .ok att.imagePath
    match searched with
    | .error e => .fatal e
    | .ok imgPath =>
      if imgPath = "" then .skipped
      else
        match (if att.engine = "hunyuan3d" then env.genHunyuanImage imgPath
               else env.genTriposg imgPath) with
        | .error e => .fatal e
        | .ok p =>
          loadAndPlace env bbMin bbMax att
            (some { role := att.description, slot := att.slot, glbPath := p }) p

/-- The attachment loop: positioned meshes and generated-assets entries
are accumulated in order; a fatal outcome aborts the whole assembly. -/
def resolveAttachments (env : AsmEnv) (bbMin bbMax : Vec3) :
    List AttachmentPart → Except HErr (List Mesh × List GeneratedPart)
  | [] => .ok ([], [])
  | att :: rest =>
    match resolveAttachment env bbMin bbMax att with
    | .fatal e => .error e
    | .skipped => resolveAttachments env bbMin bbMax rest
    | .placed gen m =>
      match resolveAttachments env bbMin bbMax rest with
      | .error e => .error e
      | .ok (ms, gs) =>
        .ok (m :: ms, (match gen with | some g => g :: gs | none => gs))

structure AsmResult where
  mergedPath : String
  verts : Nat
  partsGenerated : List GeneratedPart
  fileSize : Nat
  rigged : Option RigResp
  rigError : Option String
  painted : Option PaintResp
  paintError : Option String
deriving DecidableEq, Repr

/-- The optional rig and paint stages at the end of `assemble_bot`: each
runs only when requested, each catches any failure of its inner call and
records it as an error field on the otherwise-successful result; a paint
success supersedes the merged path and file size. -/
def assemblePostStages (autoRig autoPaint : Bool)
    (rigOutcome : Except String RigResp) (paintOutcome : Except String PaintResp)
    (r0 : AsmResult) : AsmResult :=
  let r1 :=
    if autoRig then
      match rigOutcome with
      | .ok rr => { r0 with rigged := some rr }
      | .error e => { r0 with rigError := some e }
    else r0
  if autoPaint then
    match paintOutcome with
    | .ok pr =>
      { r1 with painted := some pr, mergedPath := pr.paintedPath, fileSize := pr.fileSize }
    | .error e => { r1 with paintError := some e }
  else r1

/-- The assemble pipeline from the point where the base mesh has been
resolved (`baseMesh`, with the generated-assets entries `baseGen` the
base resolution contributed): compute the base bounds once, resolve and
position every attachment, concatenate base and attachments, then run
the optional rig and paint stages. -/
def assembleFromBase (env : AsmEnv) (attachments : List AttachmentPart)
    (outputName : String) (autoRig autoPaint : Bool)
    (baseMesh : Mesh) (baseGen : List GeneratedPart)
    (rigOutcome : Except String RigResp) (paintOutcome : Except String PaintResp) :
    Except HErr AsmResult :=
  let bb := meshBounds baseMesh
  match resolveAttachments env bb.1 bb.2 attachments with
  | .error e => .error e
  | .ok (ms, gens) =>
    let merged : Mesh := (baseMesh :: ms).flatten
    let r0 : AsmResult :=
      { mergedPath := "/parts/generated/" ++ outputName ++ ".glb"
        verts := merged.length
        partsGenerated := baseGen ++ gens
        fileSize := env.exportSize
        rigged := none
        rigError := none
        painted := none
        paintError := none }
    .ok (assemblePostStages autoRig autoPaint rigOutcome paintOutcome r0)

/-! ## Helper lemmas -/

theorem Vec3.smul_one (v : Vec3) : Vec3.smul 1 v = v := by
  cases v
  simp [Vec3.smul]

theorem applyScale_one (m : Mesh) : applyScale m 1 = m := by
  unfold applyScale
  induction m with
  | nil => rfl
  | cons v vs ih => simp [Vec3.smul_one, ih]

/-! ## Claim theorems -/

/-- C2: for every bounding box and every slot present in `SLOT_MAP`,
`get_slot_position` returns exactly the minimum corner plus the box size
multiplied componentwise by the fraction triple of the slot; a slot name
absent from the table yields the same position as slot top; and for the
box from (0,0,0) to (2,4,2) the slot head yields (1, 4, 1). -/
theorem C2_slot_placement :
    (∀ (bbMin bbMax : Vec3) (slot : String) (fr : Vec3),
        SLOT_MAP slot = some fr →
        get_slot_position bbMin bbMax slot =
          Vec3.add bbMin (Vec3.hmul (Vec3.sub bbMax bbMin) fr))
  ∧ (∀ (bbMin bbMax : Vec3) (slot : String),
        SLOT_MAP slot = none →
        get_slot_position bbMin bbMax slot = get_slot_position bbMin bbMax "top")
  ∧ get_slot_position ⟨0, 0, 0⟩ ⟨2, 4, 2⟩ "head" = ⟨1, 4, 1⟩ := by
  have main : ∀ (bbMin bbMax : Vec3) (slot : String) (fr : Vec3),
      SLOT_MAP slot = some fr →
      get_slot_position bbMin bbMax slot =
        Vec3.add bbMin (Vec3.hmul (Vec3.sub bbMax bbMin) fr) := by
    intro bbMin bbMax slot fr h
    unfold get_slot_position
    simp [h]
  refine ⟨main, ?_, ?_⟩
  · intro bbMin bbMax slot h
    unfold get_slot_position
    simp [h, slot_map_top]
  · rw [main ⟨0, 0, 0⟩ ⟨2, 4, 2⟩ "head" ⟨1/2, 1, 1/2⟩ rfl]
    unfold Vec3.add Vec3.hmul Vec3.sub
    norm_num

/-- Witness for C2 at concrete inputs: the waist slot of the box from
(1,2,3) to (3,6,7), and an undefined slot name falling back to top. -/
theorem C2_slot_placement_witness :
    get_slot_position ⟨1, 2, 3⟩ ⟨3, 6, 7⟩ "waist" =
      Vec3.add ⟨1, 2, 3⟩ (Vec3.hmul (Vec3.sub ⟨3, 6, 7⟩ ⟨1, 2, 3⟩) ⟨1/2, 2/5, 1/2⟩)
  ∧ get_slot_position ⟨0, 0, 0⟩ ⟨1, 1, 1⟩ "antenna" =
      get_slot_position ⟨0, 0, 0⟩ ⟨1, 1, 1⟩ "top" :=
  ⟨C2_slot_placement.1 ⟨1, 2, 3⟩ ⟨3, 6, 7⟩ "waist" ⟨1/2, 2/5, 1/2⟩ rfl,
   C2_slot_placement.2.1 ⟨0, 0, 0⟩ ⟨1, 1, 1⟩ "antenna" rfl⟩

/-- C4: positioning an attachment first applies the uniform scale, then
computes the centroid of the scaled mesh, and translates by the slot
target minus that post-scale centroid — for every mesh, scale, slot and
bounding box the result equals the scale-first normal form.  The
scenario: a symmetric mesh with pre-scale centroid (0,0,0), scale 2 and
target (1,4,1) (slot head of the box (0,0,0)—(2,4,2)) receives the final
translation (1,4,1). -/
theorem C4_scale_before_centroid :
    (∀ (bbMin bbMax : Vec3) (m : Mesh) (scale : ℚ) (slot : String),
        positionAttachment bbMin bbMax m scale slot =
          applyTranslation (applyScale m scale)
            (Vec3.sub (get_slot_position bbMin bbMax slot)
              (centroid (applyScale m scale))))
  ∧ positionAttachment ⟨0, 0, 0⟩ ⟨2, 4, 2⟩ [⟨-1, -1, -1⟩, ⟨1, 1, 1⟩] 2 "head" =
      applyTranslation (applyScale [⟨-1, -1, -1⟩, ⟨1, 1, 1⟩] 2) ⟨1, 4, 1⟩
  ∧ centroid (applyScale [⟨-1, -1, -1⟩, ⟨1, 1, 1⟩] 2) = Vec3.zero
  ∧ positionAttachment ⟨0, 0, 0⟩ ⟨2, 4, 2⟩ [⟨-1, -1, -1⟩, ⟨1, 1, 1⟩] 2 "head" =
      [⟨-1, 2, -1⟩, ⟨3, 6, 3⟩] := by
  have main : ∀ (bbMin bbMax : Vec3) (m : Mesh) (scale : ℚ) (slot : String),
      positionAttachment bbMin bbMax m scale slot =
        applyTranslation (applyScale m scale)
          (Vec3.sub (get_slot_position bbMin bbMax slot)
            (centroid (applyScale m scale))) := by
    intro bbMin bbMax m scale slot
    unfold positionAttachment
    by_cases h : scale = 1
    · subst h
      simp [applyScale_one]
    · simp [h]
  have hcent : centroid (applyScale [(⟨-1, -1, -1⟩ : Vec3), ⟨1, 1, 1⟩] 2) = Vec3.zero := by
    simp only [centroid, applyScale, sumVecs, Vec3.smul, Vec3.add, Vec3.zero, List.map,
      List.length]
    norm_num
  have hslot : get_slot_position ⟨0, 0, 0⟩ ⟨2, 4, 2⟩ "head" = (⟨1, 4, 1⟩ : Vec3) := by
    unfold get_slot_position SLOT_MAP Vec3.add Vec3.hmul Vec3.sub
    norm_num
  have hmain2 : positionAttachment ⟨0, 0, 0⟩ ⟨2, 4, 2⟩ [⟨-1, -1, -1⟩, ⟨1, 1, 1⟩] 2 "head" =
      applyTranslation (applyScale [⟨-1, -1, -1⟩, ⟨1, 1, 1⟩] 2) ⟨1, 4, 1⟩ := by
    rw [main, hcent, hslot]
    unfold Vec3.sub Vec3.zero
    norm_num
  refine ⟨main, hmain2, hcent, ?_⟩
  rw [hmain2]
  unfold applyTranslation applyScale Vec3.smul Vec3.add
  norm_num

/-- C1 counterexample: acquiring TripoSG while the Hunyuan3D shape model
is resident (the sequence performed when a text-generated request is
followed by an image request on the TripoSG engine) does not release the
resident model — afterwards two model kinds are simultaneously resident,
so residency is not exclusive. -/
theorem C1_residency_counterexample :
    (get_hunyuan3d_model ⟨true, true, true, true⟩ initState).2.resident .hunyuanShape = true
  ∧ (get_triposg_models ⟨true, true, true, true⟩
      (get_hunyuan3d_model ⟨true, true, true, true⟩ initState).2).2.resident
        .hunyuanShape = true
  ∧ (get_triposg_models ⟨true, true, true, true⟩
      (get_hunyuan3d_model ⟨true, true, true, true⟩ initState).2).2.resident
        .triposg = true
  ∧ (get_triposg_models ⟨true, true, true, true⟩
      (get_hunyuan3d_model ⟨true, true, true, true⟩ initState).2).2.residentCount = 2 := by
  decide

/-- C1 (amended): acquiring a model kind never releases a different
resident kind — each of the four lazy loaders leaves the residency of
every other kind exactly as it was, so exclusivity holds only where a
call site explicitly unloads the competing models before acquiring. -/
theorem C1_acquire_preserves_others (env : LoadEnv) (s : SrvState) :
    ((get_triposg_models env s).2.resident .hunyuanShape = s.resident .hunyuanShape
      ∧ (get_triposg_models env s).2.resident .hunyuanText2img = s.resident .hunyuanText2img
      ∧ (get_triposg_models env s).2.resident .hunyuanPaint = s.resident .hunyuanPaint)
  ∧ ((get_hunyuan3d_model env s).2.resident .triposg = s.resident .triposg
      ∧ (get_hunyuan3d_model env s).2.resident .hunyuanText2img = s.resident .hunyuanText2img
      ∧ (get_hunyuan3d_model env s).2.resident .hunyuanPaint = s.resident .hunyuanPaint)
  ∧ ((get_hunyuan3d_text2img env s).2.resident .triposg = s.resident .triposg
      ∧ (get_hunyuan3d_text2img env s).2.resident .hunyuanShape = s.resident .hunyuanShape
      ∧ (get_hunyuan3d_text2img env s).2.resident .hunyuanPaint = s.resident .hunyuanPaint)
  ∧ ((get_hunyuan3d_paint env s).2.resident .triposg = s.resident .triposg
      ∧ (get_hunyuan3d_paint env s).2.resident .hunyuanShape = s.resident .hunyuanShape
      ∧ (get_hunyuan3d_paint env s).2.resident .hunyuanText2img = s.resident .hunyuanText2img) := by
  refine ⟨⟨?_, ?_, ?_⟩, ⟨?_, ?_, ?_⟩, ⟨?_, ?_, ?_⟩, ⟨?_, ?_, ?_⟩⟩ <;>
    (simp only [get_triposg_models, get_hunyuan3d_model, get_hunyuan3d_text2img,
        get_hunyuan3d_paint, SrvState.resident]
     split <;> (try split) <;> simp)

/-- C9: each lazy loader is idempotent once its model is resident — it
returns the existing handle and the state (including the load counter)
entirely unchanged, so no reload is performed. -/
theorem C9_acquire_idempotent (env : LoadEnv) (s : SrvState) :
    (∀ h, s.triposgPipe = some h → get_triposg_models env s = (some h, s))
  ∧ (∀ h, s.hunyuan3dPipe = some h → get_hunyuan3d_model env s = (some h, s))
  ∧ (∀ h, s.hunyuan3dText2img = some h → get_hunyuan3d_text2img env s = (some h, s))
  ∧ (∀ h, s.hunyuan3dPaint = some h → get_hunyuan3d_paint env s = (some h, s)) := by
  refine ⟨fun h hh => ?_, fun h hh => ?_, fun h hh => ?_, fun h hh => ?_⟩ <;>
    simp [get_triposg_models, get_hunyuan3d_model, get_hunyuan3d_text2img,
      get_hunyuan3d_paint, hh]

/-- Witness for C9: a state with every model resident; each loader
returns the stored handle and the state unchanged. -/
theorem C9_acquire_idempotent_witness :
    get_triposg_models ⟨true, true, true, true⟩
        ⟨some 5, some 6, some 7, some 8, some 9, 3, 10⟩
      = (some 5, ⟨some 5, some 6, some 7, some 8, some 9, 3, 10⟩)
  ∧ get_hunyuan3d_model ⟨true, true, true, true⟩
        ⟨some 5, some 6, some 7, some 8, some 9, 3, 10⟩
      = (some 7, ⟨some 5, some 6, some 7, some 8, some 9, 3, 10⟩)
  ∧ get_hunyuan3d_text2img ⟨true, true, true, true⟩
        ⟨some 5, some 6, some 7, some 8, some 9, 3, 10⟩
      = (some 8, ⟨some 5, some 6, some 7, some 8, some 9, 3, 10⟩)
  ∧ get_hunyuan3d_paint ⟨true, true, true, true⟩
        ⟨some 5, some 6, some 7, some 8, some 9, 3, 10⟩
      = (some 9, ⟨some 5, some 6, some 7, some 8, some 9, 3, 10⟩) :=
  ⟨(C9_acquire_idempotent _ _).1 5 rfl,
   (C9_acquire_idempotent _ _).2.1 7 rfl,
   (C9_acquire_idempotent _ _).2.2.1 8 rfl,
   (C9_acquire_idempotent _ _).2.2.2 9 rfl⟩

/-- C3: an attachment that supplies no GLB path, no text prompt, no
image path, and whose image search (if any) yields no image, is skipped
rather than failed: the loop step returns skip, and the attachment loop
— and with it the whole assembly from a resolved base — behaves exactly
as if that attachment were absent, so no positioned mesh and no
generated-assets entry comes from it and the run still succeeds whenever
it succeeds without it. -/
theorem C3_empty_attachment_skipped (env : AsmEnv) (bbMin bbMax : Vec3)
    (att : AttachmentPart)
    (hg : att.glbPath = "") (ht : att.textPrompt = "") (hi : att.imagePath = "")
    (hs : att.searchQuery = "" ∨ env.searchImage att.searchQuery = .ok "") :
    resolveAttachment env bbMin bbMax att = .skipped
  ∧ (∀ pre post, resolveAttachments env bbMin bbMax (pre ++ att :: post)
      = resolveAttachments env bbMin bbMax (pre ++ post))
  ∧ (∀ pre post outputName autoRig autoPaint baseMesh baseGen rigO paintO,
      assembleFromBase env (pre ++ att :: post) outputName autoRig autoPaint
          baseMesh baseGen rigO paintO
        = assembleFromBase env (pre ++ post) outputName autoRig autoPaint
            baseMesh baseGen rigO paintO) := by
  have hskip : ∀ b0 b1 : Vec3, resolveAttachment env b0 b1 att = .skipped := by
    intro b0 b1
    unfold resolveAttachment
    by_cases hq : att.searchQuery = ""
    · simp [hg, ht, hi, hq]
    · have hs2 : env.searchImage att.searchQuery = .ok "" := by
        rcases hs with h | h
        · exact absurd h hq
        · exact h
      simp [hg, ht, hi, hq, hs2]
  have hloop : ∀ (b0 b1 : Vec3) (pre post : List AttachmentPart),
      resolveAttachments env b0 b1 (pre ++ att :: post)
        = resolveAttachments env b0 b1 (pre ++ post) := by
    intro b0 b1 pre post
    induction pre with
    | nil => simp [resolveAttachments, hskip]
    | cons a pre ih =>
      simp only [List.cons_append, resolveAttachments, List.append_eq]
      rw [ih]
  refine ⟨hskip bbMin bbMax, hloop bbMin bbMax, ?_⟩
  intro pre post outputName autoRig autoPaint baseMesh baseGen rigO paintO
  unfold assembleFromBase
  simp only [hloop]

/-- Witness for C3: a concrete attachment with every source field empty
under a concrete environment is skipped. -/
theorem C3_empty_attachment_skipped_witness :
    resolveAttachment
        ⟨fun _ => true, fun _ => .ok "", fun _ => .ok "", fun _ => .ok "",
         fun _ => .ok "", fun _ => .ok [], 0⟩
        ⟨0, 0, 0⟩ ⟨1, 1, 1⟩
        ⟨"claw", "", "", "", "", "left_hand", 1, "triposg"⟩ = .skipped :=
  (C3_empty_attachment_skipped
    ⟨fun _ => true, fun _ => .ok "", fun _ => .ok "", fun _ => .ok "",
     fun _ => .ok "", fun _ => .ok [], 0⟩
    ⟨0, 0, 0⟩ ⟨1, 1, 1⟩
    ⟨"claw", "", "", "", "", "left_hand", 1, "triposg"⟩
    rfl rfl rfl (Or.inl rfl)).1

/-- C5 counterexample: an 80000-face mesh whose decimation call raises
is passed to the paint backend with its original 80000 faces, above the
50000-face ceiling — the ceiling is not an enforced precondition. -/
theorem C5_decimation_counterexample :
    meshSentToPaintBackend
        ⟨true, true, ⟨true, true, true, true⟩, ⟨0, 80000⟩, true, none,
         fun _ => true, true, 0⟩
      = ⟨0, 80000⟩
  ∧ MAX_PAINT_FACES < 80000 := ⟨rfl, by decide⟩

/-- C5 (amended): a mesh at or below the 50000-face ceiling is passed to
the paint backend unchanged; above the ceiling quadric decimation is
attempted before the backend call and its result is used when it
succeeds, but when the decimation call raises the original over-ceiling
mesh is passed through with only a warning. -/
theorem C5_decimation_amended (mesh : PMesh) (dec : Option PMesh) :
    (mesh.faceCount ≤ MAX_PAINT_FACES → decimateForPaint mesh dec = mesh)
  ∧ (∀ m, dec = some m → MAX_PAINT_FACES < mesh.faceCount →
      decimateForPaint mesh dec = m)
  ∧ (dec = none → MAX_PAINT_FACES < mesh.faceCount → decimateForPaint mesh dec = mesh)
  ∧ (∀ env : PaintEnv, meshSentToPaintBackend env = decimateForPaint env.mesh env.decimated) := by
  refine ⟨?_, ?_, ?_, fun _ => rfl⟩
  · intro hle
    unfold decimateForPaint
    rw [if_neg (by omega)]
  · intro m hdec hgt
    unfold decimateForPaint
    rw [if_pos hgt, hdec]
  · intro hdec hgt
    unfold decimateForPaint
    rw [if_pos hgt, hdec]

/-- Witness for C5 (amended): a 10000-face mesh passes through unchanged,
a successfully decimated 80000-face mesh is replaced by the decimation
result, and a failed decimation passes the original through. -/
theorem C5_decimation_amended_witness :
    decimateForPaint ⟨1, 10000⟩ (some ⟨2, 9000⟩) = ⟨1, 10000⟩
  ∧ decimateForPaint ⟨3, 80000⟩ (some ⟨4, 50000⟩) = ⟨4, 50000⟩
  ∧ decimateForPaint ⟨5, 80000⟩ none = ⟨5, 80000⟩ :=
  ⟨(C5_decimation_amended _ _).1 (by decide),
   (C5_decimation_amended _ _).2.1 ⟨4, 50000⟩ rfl (by decide),
   (C5_decimation_amended _ _).2.2.1 rfl (by decide)⟩

/-- C6 counterexample: a rig run that exits with code zero but produces
no output file is not an error in the source — the rig endpoint returns
normally with a null rigged path, and the assembly records that response
under its rigged field and leaves the rig-error field unset, so a
missing-output rig failure does not populate a rig-error field as the
claim states. -/
theorem C6_missing_output_counterexample :
    (rig_bot ⟨true, true, true, fun _ => .completed 0 "" "", false, 9⟩
        ⟨"/parts/generated/bot.glb", "bot_rigged"⟩ initState).1
      = .ok ⟨"/parts/generated/bot.glb", "bot_rigged", none, none⟩
  ∧ assembleFromBase
      ⟨fun _ => true, fun _ => .ok "", fun _ => .ok "", fun _ => .ok "",
       fun _ => .ok "", fun _ => .ok [], 0⟩
      [] "bot" true false [] []
      (.ok ⟨"/parts/generated/bot.glb", "bot_rigged", none, none⟩)
      (.error "paint failed")
    = .ok ⟨"/parts/generated/bot.glb", 0, [], 0,
        some ⟨"/parts/generated/bot.glb", "bot_rigged", none, none⟩, none, none, none⟩ :=
  ⟨rfl, rfl⟩

/-- C6 (amended): a rig stage whose inner call raises (tool error,
timeout, missing interpreter or wrapper) is non-fatal — the assembly
still returns a successful result with the rig-error field populated, no
rigged artifact, and the merged path on the un-rigged merge; a rig run
that returns normally — including one that completed without producing
an output file, reported as a response with a null rigged path — is
recorded under the rigged field with the rig-error field unset, the
assembly again succeeding with the merged path on the un-rigged merge
(superseded only by a successful paint stage, which itself paints the
un-rigged merge). -/
theorem C6_rig_stage_amended (env : AsmEnv) (attachments : List AttachmentPart)
    (outputName : String) (autoPaint : Bool) (baseMesh : Mesh)
    (baseGen : List GeneratedPart)
    (paintOutcome : Except String PaintResp) (ms : List Mesh) (gens : List GeneratedPart)
    (hatt : resolveAttachments env (meshBounds baseMesh).1 (meshBounds baseMesh).2 attachments
      = .ok (ms, gens)) :
    (∀ e : String,
      ∃ r, assembleFromBase env attachments outputName true autoPaint baseMesh baseGen
            (.error e) paintOutcome = .ok r
        ∧ r.rigError = some e
        ∧ r.rigged = none
        ∧ (autoPaint = false → r.mergedPath = "/parts/generated/" ++ outputName ++ ".glb")
        ∧ (∀ msg, paintOutcome = .error msg →
            r.mergedPath = "/parts/generated/" ++ outputName ++ ".glb")
        ∧ (∀ pr, autoPaint = true → paintOutcome = .ok pr →
            r.mergedPath = pr.paintedPath))
  ∧ (∀ resp : RigResp,
      ∃ r, assembleFromBase env attachments outputName true autoPaint baseMesh baseGen
            (.ok resp) paintOutcome = .ok r
        ∧ r.rigError = none
        ∧ r.rigged = some resp
        ∧ (autoPaint = false → r.mergedPath = "/parts/generated/" ++ outputName ++ ".glb")
        ∧ (∀ msg, paintOutcome = .error msg →
            r.mergedPath = "/parts/generated/" ++ outputName ++ ".glb")
        ∧ (∀ pr, autoPaint = true → paintOutcome = .ok pr →
            r.mergedPath = pr.paintedPath)) := by
  constructor
  · intro e
    refine ⟨assemblePostStages true autoPaint (.error e) paintOutcome
        { mergedPath := "/parts/generated/" ++ outputName ++ ".glb"
          verts := (baseMesh :: ms).flatten.length
          partsGenerated := baseGen ++ gens
          fileSize := env.exportSize
          rigged := none
          rigError := none
          painted := none
          paintError := none }, ?_, ?_⟩
    · unfold assembleFromBase
      simp only [hatt]
    · unfold assemblePostStages
      cases autoPaint <;> cases paintOutcome <;> simp
  · intro resp
    refine ⟨assemblePostStages true autoPaint (.ok resp) paintOutcome
        { mergedPath := "/parts/generated/" ++ outputName ++ ".glb"
          verts := (baseMesh :: ms).flatten.length
          partsGenerated := baseGen ++ gens
          fileSize := env.exportSize
          rigged := none
          rigError := none
          painted := none
          paintError := none }, ?_, ?_⟩
    · unfold assembleFromBase
      simp only [hatt]
    · unfold assemblePostStages
      cases autoPaint <;> cases paintOutcome <;> simp

/-- Witness for C6 (amended): with an empty attachment list and a
failing paint stage, a raising rig stage yields a result carrying the
rig error and the un-rigged merged path, while a completed rig run with
a null rigged path (missing output) is recorded under the rigged field
with no rig error. -/
theorem C6_rig_stage_amended_witness :
    (∃ r, assembleFromBase
          ⟨fun _ => true, fun _ => .ok "", fun _ => .ok "", fun _ => .ok "",
           fun _ => .ok "", fun _ => .ok [], 0⟩
          [] "bot" true true [] [] (.error "rig tool missing") (.error "paint failed")
        = .ok r
      ∧ r.rigError = some "rig tool missing"
      ∧ r.rigged = none
      ∧ (true = false → r.mergedPath = "/parts/generated/" ++ "bot" ++ ".glb")
      ∧ (∀ msg, (Except.error "paint failed" : Except String PaintResp) = .error msg →
          r.mergedPath = "/parts/generated/" ++ "bot" ++ ".glb")
      ∧ (∀ pr, true = true →
          (Except.error "paint failed" : Except String PaintResp) = .ok pr →
          r.mergedPath = pr.paintedPath))
  ∧ (∃ r, assembleFromBase
          ⟨fun _ => true, fun _ => .ok "", fun _ => .ok "", fun _ => .ok "",
           fun _ => .ok "", fun _ => .ok [], 0⟩
          [] "bot" true true [] []
          (.ok ⟨"/parts/generated/bot.glb", "bot_rigged", none, none⟩)
          (.error "paint failed")
        = .ok r
      ∧ r.rigError = none
      ∧ r.rigged = some ⟨"/parts/generated/bot.glb", "bot_rigged", none, none⟩
      ∧ (true = false → r.mergedPath = "/parts/generated/" ++ "bot" ++ ".glb")
      ∧ (∀ msg, (Except.error "paint failed" : Except String PaintResp) = .error msg →
          r.mergedPath = "/parts/generated/" ++ "bot" ++ ".glb")
      ∧ (∀ pr, true = true →
          (Except.error "paint failed" : Except String PaintResp) = .ok pr →
          r.mergedPath = pr.paintedPath)) :=
  ⟨(C6_rig_stage_amended
      ⟨fun _ => true, fun _ => .ok "", fun _ => .ok "", fun _ => .ok "",
       fun _ => .ok "", fun _ => .ok [], 0⟩
      [] "bot" true [] [] (.error "paint failed") [] [] rfl).1 "rig tool missing",
   (C6_rig_stage_amended
      ⟨fun _ => true, fun _ => .ok "", fun _ => .ok "", fun _ => .ok "",
       fun _ => .ok "", fun _ => .ok [], 0⟩
      [] "bot" true [] [] (.error "paint failed") [] [] rfl).2
      ⟨"/parts/generated/bot.glb", "bot_rigged", none, none⟩⟩

/-- C7: the paint endpoint never leaves the paint model resident — from
any state, if the input GLB resolves then every execution path (success
and each failure path) ends with the paint model unloaded; and when the
paint model was not resident on entry, it is not resident on exit on the
remaining (early 404) path either. -/
theorem C7_paint_always_released (env : PaintEnv) (req : PaintRequest) (s : SrvState) :
    (env.glbExists = true → ((paint_bot env req s).2).hunyuan3dPaint = none)
  ∧ (s.hunyuan3dPaint = none → ((paint_bot env req s).2).hunyuan3dPaint = none) := by
  have key : env.glbExists = true → ((paint_bot env req s).2).hunyuan3dPaint = none := by
    intro hg
    unfold paint_bot
    rcases hmp : get_hunyuan3d_paint env.loads (unload_triposg (unload_hunyuan3d s))
      with ⟨o, s2⟩
    cases hr : env.refImage <;> cases o <;> cases hl : env.loadOk <;>
      cases hb : env.backend (meshSentToPaintBackend env) <;> cases he : env.exportOk <;>
        simp [hg, hr, hmp, hl, hb, he, unload_hunyuan3d_paint]
  refine ⟨key, fun hp => ?_⟩
  cases hg : env.glbExists
  · simp [paint_bot, hg, hp]
  · exact key hg

/-- Witness for C7: a successful paint run from a state with every model
resident ends with the paint model unloaded; so does an early-404 run
from a paint-free state. -/
theorem C7_paint_always_released_witness :
    ((paint_bot
        ⟨true, true, ⟨true, true, true, true⟩, ⟨0, 10000⟩, true, none,
         fun _ => true, true, 77⟩
        ⟨"/parts/generated/a.glb", "", "robot", "painted"⟩
        ⟨some 1, some 2, some 3, some 4, some 5, 5, 6⟩).2).hunyuan3dPaint = none
  ∧ ((paint_bot
        ⟨false, true, ⟨true, true, true, true⟩, ⟨0, 10000⟩, true, none,
         fun _ => true, true, 77⟩
        ⟨"/parts/generated/a.glb", "", "robot", "painted"⟩
        ⟨some 1, some 2, some 3, some 4, none, 5, 6⟩).2).hunyuan3dPaint = none :=
  ⟨(C7_paint_always_released
      ⟨true, true, ⟨true, true, true, true⟩, ⟨0, 10000⟩, true, none,
       fun _ => true, true, 77⟩
      ⟨"/parts/generated/a.glb", "", "robot", "painted"⟩
      ⟨some 1, some 2, some 3, some 4, some 5, 5, 6⟩).1 rfl,
   (C7_paint_always_released
      ⟨false, true, ⟨true, true, true, true⟩, ⟨0, 10000⟩, true, none,
       fun _ => true, true, 77⟩
      ⟨"/parts/generated/a.glb", "", "robot", "painted"⟩
      ⟨some 1, some 2, some 3, some 4, none, 5, 6⟩).2 rfl⟩

/-- C8: the rig endpoint runs the external tool under the hard
300-second bound `RIG_TIMEOUT_S`; expiry of that bound fails the call
with a 504 timeout error, a non-zero exit code fails it with a 500
external-tool error, and a rigged path is reported exactly when the exit
code is zero and the declared output file exists (otherwise the null
rigged path is returned). -/
theorem C8_rig_semantics (env : RigEnv) (req : RigRequest) (s : SrvState)
    (hg : env.glbExists = true) (hp : env.unirigPythonExists = true)
    (hw : env.rigWrapperExists = true) :
    RIG_TIMEOUT_S = 300
  ∧ (env.run RIG_TIMEOUT_S = .timeoutExpired →
      (rig_bot env req s).1 = .error (504, "Rigging timed out (300s limit)"))
  ∧ (∀ c out err, env.run RIG_TIMEOUT_S = .completed c out err → c ≠ 0 →
      (rig_bot env req s).1 = .error (500, "UniRig rigging failed"))
  ∧ (∀ out err, env.run RIG_TIMEOUT_S = .completed 0 out err → env.outputExists = true →
      (rig_bot env req s).1 =
        .ok { glbInput := req.glbPath
              outputName := req.outputName
              riggedPath := some ("/parts/generated/" ++ req.outputName ++ ".glb")
              fileSize := some env.outputSize })
  ∧ (∀ out err, env.run RIG_TIMEOUT_S = .completed 0 out err → env.outputExists = false →
      (rig_bot env req s).1 =
        .ok { glbInput := req.glbPath
              outputName := req.outputName
              riggedPath := none
              fileSize := none }) := by
  refine ⟨rfl, ?_, ?_, ?_, ?_⟩
  · intro hrun
    simp [rig_bot, hg, hp, hw, hrun]
  · intro c out err hrun hc
    simp [rig_bot, hg, hp, hw, hrun, hc]
  · intro out err hrun hout
    simp [rig_bot, hg, hp, hw, hrun, hout]
  · intro out err hrun hout
    simp [rig_bot, hg, hp, hw, hrun, hout]

/-- Witness for C8: a concrete run that times out, one that exits with
code 2, one that succeeds with an existing output, and one that succeeds
but produces no output file. -/
theorem C8_rig_semantics_witness :
    (rig_bot ⟨true, true, true, fun _ => .timeoutExpired, true, 9⟩
        ⟨"/parts/generated/m.glb", "rigged_bot"⟩ initState).1
      = .error (504, "Rigging timed out (300s limit)")
  ∧ (rig_bot ⟨true, true, true, fun _ => .completed 2 "" "boom", true, 9⟩
        ⟨"/parts/generated/m.glb", "rigged_bot"⟩ initState).1
      = .error (500, "UniRig rigging failed")
  ∧ (rig_bot ⟨true, true, true, fun _ => .completed 0 "" "", true, 9⟩
        ⟨"/parts/generated/m.glb", "rigged_bot"⟩ initState).1
      = .ok { glbInput := "/parts/generated/m.glb"
              outputName := "rigged_bot"
              riggedPath := some ("/parts/generated/" ++ "rigged_bot" ++ ".glb")
              fileSize := some 9 }
  ∧ (rig_bot ⟨true, true, true, fun _ => .completed 0 "" "", false, 9⟩
        ⟨"/parts/generated/m.glb", "rigged_bot"⟩ initState).1
      = .ok { glbInput := "/parts/generated/m.glb"
              outputName := "rigged_bot"
              riggedPath := none
              fileSize := none } :=
  ⟨(C8_rig_semantics ⟨true, true, true, fun _ => .timeoutExpired, true, 9⟩
      ⟨"/parts/generated/m.glb", "rigged_bot"⟩ initState rfl rfl rfl).2.1 rfl,
   (C8_rig_semantics ⟨true, true, true, fun _ => .completed 2 "" "boom", true, 9⟩
      ⟨"/parts/generated/m.glb", "rigged_bot"⟩ initState rfl rfl rfl).2.2.1
      2 "" "boom" rfl (by decide),
   (C8_rig_semantics ⟨true, true, true, fun _ => .completed 0 "" "", true, 9⟩
      ⟨"/parts/generated/m.glb", "rigged_bot"⟩ initState rfl rfl rfl).2.2.2.1
      "" "" rfl rfl,
   (C8_rig_semantics ⟨true, true, true, fun _ => .completed 0 "" "", false, 9⟩
      ⟨"/parts/generated/m.glb", "rigged_bot"⟩ initState rfl rfl rfl).2.2.2.2
      "" "" rfl rfl⟩

/-- C10: a merge entry that omits its position field is placed with the
default translation [0, 0, 0] on every node it contributes, and one that
omits its rotation field with the default rotation [0, 0, 0] — each
missing field defaults independently — and any entry whose file exists
is still merged rather than rejected: the one-step loop appends its
nodes, a single-entry merge succeeds counting the part, and a
single-mesh entry contributes a node. -/
theorem C10_merge_defaults (env : MergeEnv) (p : MergePartEntry) (i : Nat)
    (outputName : String) (hex : env.pathExists p.path = true) :
    (p.position = none → ∀ g, g ∈ placedOf env i p → g.translate = Vec3.zero)
  ∧ (p.rotationDeg = none → ∀ g, g ∈ placedOf env i p → g.rotateDeg = Vec3.zero)
  ∧ (∀ rest rs, mergeGo env (i + 1) rest = .ok rs →
      mergeGo env i (p :: rest) = .ok (placedOf env i p ++ rs))
  ∧ merge_parts env [p] outputName =
      .ok { mergedPath := "/parts/generated/" ++ outputName ++ ".glb"
            partsCount := 1
            fileSize := env.exportSize
            placed := placedOf env 0 p }
  ∧ (env.loaded p.path = .single → placedOf env i p ≠ []) := by
  refine ⟨?_, ?_, ?_, ?_, ?_⟩
  · intro hpos g hgmem
    unfold placedOf at hgmem
    rcases hload : env.loaded p.path with _ | names <;>
      rw [hload] at hgmem <;> simp [hpos] at hgmem
    · rw [hgmem]
    · rcases hgmem with ⟨n, hn, hg⟩
      rw [← hg]
  · intro hrot g hgmem
    unfold placedOf at hgmem
    rcases hload : env.loaded p.path with _ | names <;>
      rw [hload] at hgmem <;> simp [hrot] at hgmem
    · rw [hgmem]
    · rcases hgmem with ⟨n, hn, hg⟩
      rw [← hg]
  · intro rest rs hrest
    unfold mergeGo
    simp [hex, hrest]
  · unfold merge_parts
    simp [mergeGo, hex]
  · intro hload
    unfold placedOf
    simp [hload]

/-- Witness for C10: an entry missing only its position is placed with
the default translation, an entry missing only its rotation with the
default rotation, and a single-entry merge of the former succeeds with
the part included. -/
theorem C10_merge_defaults_witness :
    (∀ g, g ∈ placedOf ⟨fun _ => true, fun _ => .single, 7⟩ 0
        ⟨"/parts/generated/a.glb", none, some ⟨1, 2, 3⟩⟩ →
      g.translate = Vec3.zero)
  ∧ (∀ g, g ∈ placedOf ⟨fun _ => true, fun _ => .single, 7⟩ 0
        ⟨"/parts/generated/b.glb", some ⟨4, 5, 6⟩, none⟩ →
      g.rotateDeg = Vec3.zero)
  ∧ merge_parts ⟨fun _ => true, fun _ => .single, 7⟩
        [⟨"/parts/generated/a.glb", none, some ⟨1, 2, 3⟩⟩] "merged_bot"
      = .ok { mergedPath := "/parts/generated/" ++ "merged_bot" ++ ".glb"
              partsCount := 1
              fileSize := 7
              placed := placedOf ⟨fun _ => true, fun _ => .single, 7⟩ 0
                ⟨"/parts/generated/a.glb", none, some ⟨1, 2, 3⟩⟩ }
  ∧ placedOf ⟨fun _ => true, fun _ => .single, 7⟩ 0
      ⟨"/parts/generated/a.glb", none, some ⟨1, 2, 3⟩⟩
    = [{ nodeName := "part_0", translate := Vec3.zero, rotateDeg := ⟨1, 2, 3⟩ }] :=
  ⟨(C10_merge_defaults ⟨fun _ => true, fun _ => .single, 7⟩
      ⟨"/parts/generated/a.glb", none, some ⟨1, 2, 3⟩⟩ 0 "merged_bot" rfl).1 rfl,
   (C10_merge_defaults ⟨fun _ => true, fun _ => .single, 7⟩
      ⟨"/parts/generated/b.glb", some ⟨4, 5, 6⟩, none⟩ 0 "merged_bot" rfl).2.1 rfl,
   (C10_merge_defaults ⟨fun _ => true, fun _ => .single, 7⟩
      ⟨"/parts/generated/a.glb", none, some ⟨1, 2, 3⟩⟩ 0 "merged_bot" rfl).2.2.2.1,
   rfl⟩

end Srv
